import Mathlib

/-!
Shallow embedding of `src/newrelic.py` (the pyrelic New Relic REST client).
Pure fragments of the Python module become Lean functions; the dynamic
rate-limit attributes become explicit state passing; raised exceptions become
`Except` errors.  Machine-level Python semantics that the claims depend on
(truthiness of `requests.Response`, instantiation of exception classes by a
bare `raise C`, attribute lookup on xpath results) are modelled explicitly
and documented at each definition.
-/

set_option maxRecDepth 40000

namespace Pyrelic

/-- Python values that flow through the parameter dictionaries of the client:
`None`, integers and strings. -/
inductive PyVal where
  | none
  | int (n : Int)
  | str (s : String)
  deriving DecidableEq, Repr

/-- The exception classes defined at the bottom of `newrelic.py`.  All are
subclasses of `NewRelicApiException`; `apiException` is the generic root
class raised when no response was obtained. -/
inductive ExcClass where
  | apiException
  | invalidApiKey
  | credential
  | invalidParameter
  | unknownApplication
  | rateLimit
  deriving DecidableEq, Repr

/-- Number of required positional arguments (beyond `self`) of each exception
class's `__init__`.  Every class takes none, except
`NewRelicApiRateLimitException`, whose source reads
`def __init__(self, arg)` and therefore requires one. -/
def initExtraArgs : ExcClass → Nat
  | .rateLimit => 1
  | _ => 0

/-- An error escaping a method: either a successfully instantiated module
exception, or one of Python's built-in runtime errors that the module's own
code triggers (`TypeError`, `NameError`, `AttributeError`, `IndexError`). -/
inductive Raised where
  | exc (c : ExcClass)
  | typeError
  | nameError (n : String)
  | attributeError (n : String)
  | indexError
  deriving DecidableEq, Repr

/-- Semantics of the statement `raise C` where `C` is an exception class:
Python instantiates the class with no arguments.  If the class's `__init__`
requires extra positional arguments the instantiation itself fails, so a
`TypeError` propagates instead of the intended exception. -/
def raiseClass (c : ExcClass) : Raised :=
  if initExtraArgs c = 0 then .exc c else .typeError

/-- Semantics of the statement `raise C(arg)` where `C` is an exception
class: Python instantiates the class with one positional argument, so the
raise only produces the intended exception when the class's `__init__`
accepts exactly one extra argument; otherwise the instantiation itself fails
with a `TypeError`. -/
def raiseClassWithArg (c : ExcClass) : Raised :=
  if initExtraArgs c = 1 then .exc c else .typeError

/-- A parsed XML tree as produced by `lxml.etree.XML` on the documents this
client consumes: an element with a tag and ordered content (child elements
and text runs), or a text run. -/
inductive Node where
  | elem (tag : String) (children : List Node)
  | text (s : String)
  deriving Repr

/-- Whitespace characters for the parser's blank-text removal. -/
def blankChar (c : Char) : Bool :=
  c = ' ' || c = '\n' || c = '\t' || c = '\r'

/-- Characters allowed to continue an element tag name. -/
def tagChar (c : Char) : Bool :=
  !(c = '>' || c = '/' || c = '<' || blankChar c)

/-- After a tag name inside an opening tag, skip whitespace and read the
closing `>` (returns `false` = has children region) or `/>` (returns `true`
= self-closing). -/
def closeTagEnd (cs : List Char) : Option (Bool × List Char) :=
  match cs.dropWhile blankChar with
  | '>' :: rest => some (false, rest)
  | '/' :: '>' :: rest => some (true, rest)
  | _ => Option.none

/-- Read a closing tag `</tag>` for the given tag name. -/
def expectClose (tag : String) (cs : List Char) : Option (List Char) :=
  match cs with
  | '<' :: '/' :: rest =>
    let name := rest.takeWhile tagChar
    let rest1 := rest.dropWhile tagChar
    if String.mk name = tag then
      match rest1.dropWhile blankChar with
      | '>' :: rest2 => some rest2
      | _ => Option.none
    else Option.none
  | _ => Option.none

/-- Fuel-bounded recursive-descent parser for the XML fragment this client
receives: nested elements and text, with whitespace-only text dropped (the
client constructs its parser with `remove_blank_text=True`).  Attributes do
not occur in any document the claims consider, so a tag is a bare name.
Returns the nodes parsed up to a closing tag or the end of input, plus the
unconsumed remainder. -/
def parseNodes : Nat → List Char → Option (List Node × List Char)
  | 0, _ => Option.none
  | _ + 1, [] => some ([], [])
  | _ + 1, '<' :: '/' :: rest => some ([], '<' :: '/' :: rest)
  | fuel + 1, '<' :: rest =>
    let name := rest.takeWhile tagChar
    if name = [] then Option.none
    else
      match closeTagEnd (rest.dropWhile tagChar) with
      | Option.none => Option.none
      | some (true, rest1) =>
        match parseNodes fuel rest1 with
        | Option.none => Option.none
        | some (ns, rest2) => some (Node.elem (String.mk name) [] :: ns, rest2)
      | some (false, rest1) =>
        match parseNodes fuel rest1 with
        | Option.none => Option.none
        | some (children, rest2) =>
          match expectClose (String.mk name) rest2 with
          | Option.none => Option.none
          | some rest3 =>
            match parseNodes fuel rest3 with
            | Option.none => Option.none
            | some (ns, rest4) =>
              some (Node.elem (String.mk name) children :: ns, rest4)
  | fuel + 1, c :: rest =>
    let t := (c :: rest).takeWhile (fun ch => !(ch = '<'))
    let rest1 := (c :: rest).dropWhile (fun ch => !(ch = '<'))
    match parseNodes fuel rest1 with
    | Option.none => Option.none
    | some (ns, rest2) =>
      some ((if t.all blankChar then ns else Node.text (String.mk t) :: ns), rest2)

/-- Model of `lxml.etree.XML` on the fragment used by the client: parse the
whole input as a sequence of nodes and require exactly one root element with
nothing left over. -/
def xmlParseChars (cs : List Char) : Option Node :=
  match parseNodes (cs.length + 1) cs with
  | some ([Node.elem tag children], []) => some (Node.elem tag children)
  | _ => Option.none

/-- Python's `response.split('\n')`: split a character list on newline
characters, keeping empty pieces. -/
def splitLines : List Char → List (List Char)
  | [] => [[]]
  | c :: rest =>
    if c = '\n' then [] :: splitLines rest
    else
      match splitLines rest with
      | [] => [[c]]
      | l :: ls => (c :: l) :: ls

/-- Python's `''.join(pieces)`: concatenation with the empty separator. -/
def joinChars (ls : List (List Char)) : List Char := ls.flatten

/-- The literal the source compares against:
`response.startswith('<?xml version="1.0" encoding="UTF-8"?>')`. -/
def xmlDecl : String := "<?xml version=\"1.0\" encoding=\"UTF-8\"?>"

/-- The body transformation inside `Client._parse_xml`: if the body starts
with the XML declaration literal, drop everything up to and including the
first newline and join the remaining lines with the empty string; otherwise
leave the body unchanged. -/
def parse_xml_chars (cs : List Char) : List Char :=
  if xmlDecl.data.isPrefixOf cs then joinChars ((splitLines cs).drop 1) else cs

/-- `Client._parse_xml`: strip a leading declaration line as above, then
parse with the recovering XML parser. -/
def parse_xml (s : String) : Option Node := xmlParseChars (parse_xml_chars s.data)

/-- An HTTP response as seen by `_make_request`: the status code and the
body text. -/
structure Response where
  status_code : Nat
  text : String

/-- Leading decimal digit of a natural number (the number itself when it is a
single digit). -/
def leadDigit : Nat → Nat → Nat
  | 0, n => n
  | fuel + 1, n => if n < 10 then n else leadDigit fuel (n / 10)

/-- The source's status test `str(response.status_code).startswith('2')`:
the decimal representation of the status code starts with the digit 2. -/
def statusStartsWith2 (n : Nat) : Bool := decide (leadDigit n n = 2)

/-- Truthiness of a `requests.Response` object: its `__bool__` returns
`self.ok`, which is `False` exactly when the status code is in `[400, 600)`.
This matters because `_make_request` tests `if not response:` on the value
left in `response` after the retry loop. -/
def Response.ok (r : Response) : Bool :=
  if 400 ≤ r.status_code ∧ r.status_code < 600 then false else true

/-- Truthiness of the `response` variable after the retry loop: it is still
`None` when no attempt returned, and otherwise carries a
`requests.Response` whose truthiness is status based. -/
def pyTruthy : Option Response → Bool
  | Option.none => false
  | some r => r.ok

/-- One attempt of the transport: `request(uri, **kwargs)` either raises a
connection-level error (`requests.ConnectionError` / `requests.HTTPError`)
or returns a response. -/
inductive Attempt where
  | connError
  | ok (r : Response)

/-- `Client._handle_api_error`: map a non-2xx status code to the exception
class the method raises. -/
def handle_api_error (status_code : Nat) : ExcClass :=
  if status_code = 403 then .invalidApiKey
  else if status_code = 404 then .unknownApplication
  else if status_code = 422 then .invalidParameter
  else .apiException

/-- The `while attempts < self.retries` loop of `_make_request`, phrased on
the number `rem = retries - attempts` of attempts still permitted so that the
recursion is structural.  Each iteration invokes the transport once; a
connection error consumes one permitted attempt, a returned response ends the
loop.  The result is the final value of the `response` variable together with
the number of transport invocations made. -/
def requestLoop (stub : Nat → Attempt) : Nat → Nat → Option Response × Nat
  | 0, attempts => (Option.none, attempts)
  | rem + 1, attempts =>
    match stub attempts with
    | .connError => requestLoop stub rem (attempts + 1)
    | .ok r => (some r, attempts + 1)

/-- The post-loop part of `_make_request`: `if not response:` raises the
generic `NewRelicApiException`; otherwise a status whose decimal form does
not start with 2 goes to `_handle_api_error`; otherwise the body is parsed. -/
def make_request_result (response : Option Response) : Except Raised (Option Node) :=
  if pyTruthy response then
    match response with
    | Option.none => .error (raiseClass .apiException)
    | some r =>
      if statusStartsWith2 r.status_code then .ok (parse_xml r.text)
      else .error (raiseClass (handle_api_error r.status_code))
  else .error (raiseClass .apiException)

/-- `Client._make_request` against an abstract transport stub, with the
client's configured retry count: run the retry loop from zero attempts, then
classify the outcome.  Also returns how many times the stub was invoked. -/
def make_request (stub : Nat → Attempt) (retries : Nat) :
    Except Raised (Option Node) × Nat :=
  let rc := requestLoop stub retries 0
  (make_request_result rc.1, rc.2)

/-- The transport stub of the retry-policy scenario: the first `n` invocations
raise a connection error, every later one returns the response `r`. -/
def stubFailThenOk (n : Nat) (r : Response) : Nat → Attempt :=
  fun i => if i < n then .connError else .ok r

/-- Python truthiness of an optional string argument: `None` and the empty
string are falsy. -/
def strFalsy : Option String → Bool
  | Option.none => true
  | some s => s.isEmpty

/-- The stored configuration of a constructed `Client` (its attributes set by
`__init__`). -/
structure Client where
  account_id : String
  api_key : String
  headers : List (String × String)
  proxy : Option String
  retries : Nat
  retry_delay : Int
  timeout : ℚ
  deriving DecidableEq, Repr

/-- `Client.__init__`: reject a missing or empty account id or API key by
executing `raise NewRelicCredentialException("""...""")` — a raise that
passes a message argument to a class whose `__init__` takes none, so what
actually propagates is the `TypeError` from the failed instantiation —
otherwise store the credentials, the `x-api-key` header, the proxy and the
numeric settings as given. -/
def Client.init (account_id api_key proxy : Option String)
    (retries : Nat) (retry_delay : Int) (timeout : ℚ) : Except Raised Client :=
  if strFalsy account_id || strFalsy api_key then .error (raiseClassWithArg .credential)
  else
    .ok { account_id := account_id.getD ""
          api_key := api_key.getD ""
          headers := [("x-api-key", api_key.getD "")]
          proxy := proxy
          retries := retries
          retry_delay := retry_delay
          timeout := timeout }

/-- Default value of the `retries` argument in the `__init__` signature. -/
def defaultRetries : Nat := 3

/-- Default value of the `retry_delay` argument in the `__init__` signature. -/
def defaultRetryDelay : Int := 1

/-- Default value of the `timeout` argument in the `__init__` signature
(`1.000`). -/
def defaultTimeout : ℚ := 1

/-- `Client.__init__` invoked with only the credentials, all other arguments
left at the defaults of the Python signature
`(proxy=None, retries=3, retry_delay=1, timeout=1.000)`. -/
def Client.initDefaults (account_id api_key : Option String) : Except Raised Client :=
  Client.init account_id api_key Option.none defaultRetries defaultRetryDelay defaultTimeout

/-- The dynamic attributes that `_api_rate_limit_exceeded` adds to the client
instance with `setattr`: a list of name/timestamp pairs where the most recent
`setattr` for a name comes first. -/
structure ClientState where
  attrs : List (String × Int)
  deriving DecidableEq, Repr

/-- Python `getattr(self, name)` for the integer timestamps stored by the
guard: `Option.none` models the `AttributeError` branch that resets the
previous call time to 0. -/
def getattrInt? (st : ClientState) (name : String) : Option Int :=
  (st.attrs.find? (fun p => decide (p.1 = name))).map Prod.snd

/-- `Client._api_rate_limit_exceeded`: look up the attribute named
`api_call.__name__ + ".window"` (0 when never set), and if strictly more than
`window` seconds elapsed since it, record the current time under that
attribute and report not rate-limited (`false`); otherwise report
rate-limited (`true`) without touching the state.  `now` is the value of
`int(time())`. -/
def api_rate_limit_exceeded (st : ClientState) (callName : String)
    (window : Int) (now : Int) : Bool × ClientState :=
  let key := callName ++ ".window"
  let previous_call_time := (getattrInt? st key).getD 0
  if window < now - previous_call_time then
    (false, ⟨(key, now) :: st.attrs⟩)
  else (true, st)

/-- The keyword arguments with which `_make_request` would invoke
`requests.get`: the URI, the query parameters, the headers and the timeout. -/
structure GetRequest where
  uri : String
  params : List (String × PyVal)
  headers : List (String × String)
  timeout : ℚ
  deriving DecidableEq, Repr

/-- The timeout defaulting shared by `_make_get_request` and
`_make_post_request`: `if not timeout: timeout = self.timeout`, so a falsy
explicit argument (`None` or `0`) is replaced by the client's configured
default and a truthy one is passed through. -/
def resolve_timeout (timeout : Option ℚ) (deflt : ℚ) : ℚ :=
  match timeout with
  | Option.none => deflt
  | some t => if t = 0 then deflt else t

/-- `Client._make_get_request`: assemble the keyword arguments passed on to
`requests.get` through `_make_request`. -/
def make_get_request (c : Client) (uri : String) (parameters : List (String × PyVal))
    (timeout : Option ℚ) : GetRequest :=
  { uri := uri
    params := parameters
    headers := c.headers
    timeout := resolve_timeout timeout c.timeout }

/-- Python dictionary assignment `d[k] = v` on an association list: the new
binding replaces any previous binding of the same key. -/
def dictSet (d : List (String × PyVal)) (k : String) (v : PyVal) :
    List (String × PyVal) :=
  (k, v) :: d.filter (fun p => decide (p.1 ≠ k))

/-- The value stored under `re` in the parameters of `get_metric_names`
(either `None` or the regex string). -/
def optStr : Option String → PyVal
  | Option.none => PyVal.none
  | some s => PyVal.str s

/-- `Client.get_metric_names` modelled up to the HTTP request it issues:
check the rate-limit guard under the operation name `get_metric_names` with
the default 60-second window and raise on rejection (the source line is
`raise NewRelicApiRateLimitException`), otherwise build the metrics URI and
issue the GET request with the explicit 5-second timeout.  Returns the
issued request together with the updated guard state. -/
def get_metric_names_request (c : Client) (st : ClientState) (now : Int)
    (app_id : Int) (re : Option String) (limit : Int) :
    Except Raised (GetRequest × ClientState) :=
  let g := api_rate_limit_exceeded st "get_metric_names" 60 now
  if g.1 then .error (raiseClass .rateLimit)
  else
    let parameters := [("re", optStr re), ("limit", PyVal.int limit)]
    let uri := "https://api.newrelic.com/api/v1/applications/" ++ toString app_id ++ "/metrics.xml"
    .ok (make_get_request c uri parameters (some 5), g.2)

/-- Python `int(s)` on a string, returning `Option.none` where Python raises
`ValueError`: an optional sign followed by at least one decimal digit. -/
def pyIntParse? (s : String) : Option Int :=
  let digitsVal : List Char → Option Nat := fun cs =>
    if cs = [] || !cs.all (fun c => c.isDigit) then Option.none
    else some (cs.foldl (fun acc c => 10 * acc + (c.toNat - '0'.toNat)) 0)
  match s.data with
  | '-' :: rest => (digitsVal rest).map (fun n => -(n : Int))
  | cs => (digitsVal cs).map Int.ofNat

/-- The `app_string` computation of `get_metric_data`: `int(applications[0])`
decides between the id-keyed `app_id` and the name-keyed `app` parameter key
(an empty list would raise `IndexError` at the subscript), and a list with
more than one element appends `[]` to the chosen key. -/
def metric_data_app_string (applications : List String) : Except Raised String :=
  match applications with
  | [] => .error .indexError
  | a0 :: _ =>
    let base := match pyIntParse? a0 with
      | some _ => "app_id"
      | Option.none => "app"
    .ok (if applications.length > 1 then base ++ "[]" else base)

/-- `Client.get_metric_data` modelled up to the point where it would issue
its HTTP request: after the rate-limit guard (operation name
`get_metric_data`, default window) and after the parameter dictionary is
filled in, the source executes `parameters['begin'] = begin_time`, but no
variable named `begin_time` is in scope (the method's own parameter is
`start_time`), so a `NameError` is raised; the request URI, which itself
references the undefined name `app_id`, is never built and no request is
issued. -/
def get_metric_data_request (st : ClientState) (now : Int)
    (applications metrics fields : List String)
    (start_time end_time : String) (summary : Bool) :
    Except Raised (GetRequest × ClientState) :=
  let g := api_rate_limit_exceeded st "get_metric_data" 60 now
  if g.1 then .error (raiseClass .rateLimit)
  else
    match metric_data_app_string applications with
    | .error e => .error e
    | .ok app_string =>
      let params0 := applications.foldl (fun d a => dictSet d app_string (PyVal.str a)) []
      let params1 := metrics.foldl (fun d m => dictSet d "metrics[]" (PyVal.str m)) params0
      let params2 := fields.foldl (fun d f => dictSet d "field" (PyVal.str f)) params1
      let _ := params2
      let _ := (start_time, end_time, summary)
      .error (.nameError "begin_time")

/-- Child elements of a node carrying a given tag, in document order (the
xpath expression `tag` relative to an element). -/
def Node.childElems (n : Node) (tag : String) : List Node :=
  match n with
  | .text _ => []
  | .elem _ children =>
    children.filter (fun c =>
      match c with
      | .elem t _ => decide (t = tag)
      | .text _ => false)

/-- The absolute xpath `/rootTag/childTag` on a parsed tree: the matching
children of the root element when the root carries `rootTag`. -/
def xpathAbs2 (root : Node) (rootTag childTag : String) : List Node :=
  match root with
  | .elem t _ => if t = rootTag then root.childElems childTag else []
  | .text _ => []

/-- The `text` attribute of an lxml element: the text immediately inside the
opening tag, i.e. the leading text run of its content, `None` otherwise. -/
def Node.firstText : Node → Option String
  | .elem _ (Node.text s :: _) => some s
  | _ => Option.none

/-- A Python value produced while navigating a parsed tree: either an element
or the list that an `xpath` call returns. -/
inductive PyXmlVal where
  | element (n : Node)
  | elementList (xs : List Node)

/-- Python attribute access `.text` on such a value: elements expose their
text, but an `xpath` result is a plain Python list, and lists have no
attribute `text`, so the access raises `AttributeError`. -/
def PyXmlVal.textAttr : PyXmlVal → Except Raised (Option String)
  | .element n => .ok n.firstText
  | .elementList _ => .error (.attributeError "text")

/-- Python attribute access `.id` on an lxml element: `_Element` objects have
no attribute `id` (the source would need `application.get('id')` or a child
lookup), so the access raises `AttributeError`. -/
def elementIdAttr (_n : Node) : Except Raised PyVal := .error (.attributeError "id")

/-- Substring containment on character lists: the needle is a prefix of some
suffix of the hay. -/
def containsSub (needle : List Char) : List Char → Bool
  | [] => decide (needle = [])
  | c :: rest => needle.isPrefixOf (c :: rest) || containsSub needle rest

/-- Python `'deleted' in s`: substring containment. -/
def containsDeleted (s : String) : Bool := containsSub "deleted".data s.data

/-- The loop of `Client.delete_applications` over the
`/applications/application` elements: evaluate
`application.xpath('result').text` (attribute access on the list returned by
`xpath`), test `not 'deleted' in` that text (`in` against `None` would raise
`TypeError`), and on failure store `application.id` under the fixed key
`'app_id'` of the `failed_deletions` dictionary. -/
def delete_applications_scan :
    List Node → List (String × PyVal) → Except Raised (List (String × PyVal))
  | [], acc => .ok acc
  | app :: rest, acc =>
    match (PyXmlVal.elementList (app.childElems "result")).textAttr with
    | .error e => .error e
    | .ok Option.none => .error .typeError
    | .ok (some s) =>
      if !containsDeleted s then
        match elementIdAttr app with
        | .error e => .error e
        | .ok i => delete_applications_scan rest (dictSet acc "app_id" i)
      else delete_applications_scan rest acc

/-- `Client.delete_applications` applied to an already-parsed response tree:
scan the application entries and return the `failed_deletions` dictionary
built by the loop. -/
def delete_applications (tree : Node) : Except Raised (List (String × PyVal)) :=
  delete_applications_scan (xpathAbs2 tree "applications" "application") []

/-- The two-entry response of the delete-applications scenario: one
application whose result text is `deleted` and one whose result text is
`failed`. -/
def deleteFixture : Node :=
  .elem "applications"
    [ .elem "application" [.elem "id" [.text "1"], .elem "result" [.text "deleted"]],
      .elem "application" [.elem "id" [.text "2"], .elem "result" [.text "failed"]] ]

/-- `Client.get_application_summary_metrics`: the entire body of the method
is a bare `pass`, so every invocation returns `None` and nothing is ever
raised. -/
def get_application_summary_metrics (_application_ids : List String) :
    Except Raised PyVal :=
  .ok PyVal.none

/-- A concrete constructed client used by the closed evaluation theorems. -/
def testClient : Client :=
  { account_id := "12345"
    api_key := "key"
    headers := [("x-api-key", "key")]
    proxy := Option.none
    retries := 3
    retry_delay := 1
    timeout := 1 }

/-! Supporting lemmas. -/

/-- Every 4xx or 5xx status code has a decimal representation that does not
start with the digit 2. -/
lemma startsWith2_not_4xx5xx : ∀ n : Nat, n < 600 → 400 ≤ n → statusStartsWith2 n = false := by
  decide

/-- A response whose status starts with 2 is truthy as a Python object. -/
lemma response_ok_of_startsWith2 (r : Response)
    (h : statusStartsWith2 r.status_code = true) : r.ok = true := by
  unfold Response.ok
  split
  · next h45 =>
    have hf := startsWith2_not_4xx5xx r.status_code h45.2 h45.1
    rw [h] at hf
    exact absurd hf (by simp)
  · rfl

/-- Behaviour of the retry loop against a stub that fails its first `n`
invocations and then returns `r`: with `rem` permitted attempts remaining
and `a` failures already counted, the loop succeeds with `n + 1` total
invocations when the remaining budget covers the outstanding failures, and
otherwise exhausts the budget. -/
lemma requestLoop_stubFailThenOk (n : Nat) (r : Response) :
    ∀ rem a : Nat, a ≤ n →
      requestLoop (stubFailThenOk n r) rem a =
        if n - a < rem then (some r, n + 1) else (Option.none, a + rem) := by
  intro rem
  induction rem with
  | zero =>
    intro a _
    simp [requestLoop]
  | succ rem ih =>
    intro a ha
    rcases Nat.lt_or_ge a n with h | h
    · have hs : stubFailThenOk n r a = Attempt.connError := by
        simp [stubFailThenOk, h]
      rw [requestLoop, hs, ih (a + 1) (by omega)]
      rcases Nat.lt_or_ge (n - (a + 1)) rem with h2 | h2
      · have hR : n - a < rem + 1 := by omega
        rw [if_pos h2, if_pos hR]
      · have hL : ¬(n - (a + 1) < rem) := by omega
        have hR : ¬(n - a < rem + 1) := by omega
        have he : a + 1 + rem = a + (rem + 1) := by omega
        rw [if_neg hL, if_neg hR, he]
    · have hn : a = n := le_antisymm ha h
      subst hn
      have hs : stubFailThenOk a r a = Attempt.ok r := by
        simp [stubFailThenOk]
      have hR : a - a < rem + 1 := by omega
      rw [requestLoop, hs, if_pos hR]

/-- Splitting on newlines leaves a newline-free list whole. -/
lemma splitLines_no_newline (a : List Char) (ha : ('\n' : Char) ∉ a) :
    splitLines a = [a] := by
  induction a with
  | nil => rfl
  | cons c cs ih =>
    have hc : ¬(c = '\n') := fun h => ha (by simp [h])
    rw [splitLines, if_neg hc, ih (fun h => ha (List.mem_cons_of_mem _ h))]

/-- Splitting on newlines after a newline-free first line peels that line
off. -/
lemma splitLines_append (a b : List Char) (ha : ('\n' : Char) ∉ a) :
    splitLines (a ++ '\n' :: b) = a :: splitLines b := by
  induction a with
  | nil => simp [splitLines]
  | cons c cs ih =>
    have hc : ¬(c = '\n') := fun h => ha (by simp [h])
    rw [List.cons_append, splitLines, if_neg hc,
      ih (fun h => ha (List.mem_cons_of_mem _ h))]

/-- Looking up the attribute just stored by `setattr` returns its value. -/
lemma getattrInt_cons (attrs : List (String × Int)) (key : String) (v : Int) :
    getattrInt? ⟨(key, v) :: attrs⟩ key = some v := by
  simp [getattrInt?]

/-- A nonempty string is truthy. -/
lemma strFalsy_some_ne (s : String) (h : s ≠ "") : strFalsy (some s) = false := by
  simp only [strFalsy]
  exact Bool.eq_false_iff.mpr (fun hb => h ((String.isEmpty_iff s).mp hb))

/-! Claim theorems. -/

/-- C1: against a transport stub that raises a connection failure on its
first `N` invocations and then returns a 2xx response, `_make_request`
returns the parse of that response exactly when `N < R` where `R` is the
retry count, invokes the stub at most `R` times, raises the generic
`NewRelicApiException` when the attempts are exhausted, and with `R = 0`
never invokes the stub and still raises that exception. -/
theorem retry_policy_fail_then_succeed (N R : Nat) (r : Response)
    (h2 : statusStartsWith2 r.status_code = true) :
    ((make_request (stubFailThenOk N r) R).1 = .ok (parse_xml r.text) ↔ N < R) ∧
    (make_request (stubFailThenOk N r) R).2 ≤ R ∧
    (R ≤ N → (make_request (stubFailThenOk N r) R).1 =
      .error (Raised.exc ExcClass.apiException)) ∧
    (R = 0 → (make_request (stubFailThenOk N r) R).2 = 0 ∧
      (make_request (stubFailThenOk N r) R).1 =
        .error (Raised.exc ExcClass.apiException)) := by
  have hloop := requestLoop_stubFailThenOk N r R 0 (Nat.zero_le N)
  rw [Nat.sub_zero, Nat.zero_add] at hloop
  simp only [make_request, hloop]
  rcases Nat.lt_or_ge N R with h | h
  · rw [if_pos h]
    have hok : make_request_result (some r) = .ok (parse_xml r.text) := by
      simp [make_request_result, pyTruthy, response_ok_of_startsWith2 r h2, h2]
    refine ⟨by simp [hok, h], by omega, fun hc => absurd h (by omega), fun hc => by omega⟩
  · rw [if_neg (by omega)]
    have herr : make_request_result Option.none = .error (Raised.exc ExcClass.apiException) := rfl
    refine ⟨?_, le_refl R, fun _ => herr, fun hc => ⟨hc, herr⟩⟩
    rw [herr]
    simp
    omega

/-- Witness for the C1 theorem at `N = 1`, `R = 3` and a 200 response: the
status hypothesis holds and the call succeeds. -/
theorem retry_policy_fail_then_succeed_witness :
    statusStartsWith2 200 = true ∧
    ((make_request (stubFailThenOk 1 (Response.mk 200 "<a/>")) 3).1 =
      .ok (parse_xml "<a/>") ↔ 1 < 3) :=
  ⟨by decide, (retry_policy_fail_then_succeed 1 3 (Response.mk 200 "<a/>") (by decide)).1⟩

/-- C2 (code bug in the source): `_handle_api_error` itself maps 403, 404 and
422 to the specific exception classes, but no received 403/404/422 response
ever reaches it: a `requests.Response` with a 4xx/5xx status is falsy, so the
`if not response:` test in `_make_request` fires first and the generic
`NewRelicApiException` is raised instead of the specific class the claim
names. -/
theorem status_classifier_403_generic :
    handle_api_error 403 = ExcClass.invalidApiKey ∧
    handle_api_error 404 = ExcClass.unknownApplication ∧
    handle_api_error 422 = ExcClass.invalidParameter ∧
    (make_request (fun _ => .ok ⟨403, ""⟩) 3).1 = .error (Raised.exc ExcClass.apiException) ∧
    (make_request (fun _ => .ok ⟨404, ""⟩) 3).1 = .error (Raised.exc ExcClass.apiException) ∧
    (make_request (fun _ => .ok ⟨422, ""⟩) 3).1 = .error (Raised.exc ExcClass.apiException) :=
  ⟨rfl, rfl, rfl, rfl, rfl, rfl⟩

/-- C3: the rate-limit guard returns not-rate-limited on the first call for a
never-seen operation name (the wall-clock time exceeds any realistic window,
stated as the hypothesis `window < now`) and records the current time; a
second call within `window` seconds of the recorded time returns rate-limited
and leaves the state untouched; a call strictly more than `window` seconds
after the recorded time returns not-rate-limited and records the new time. -/
theorem rate_limit_guard_behaviour (st : ClientState) (name : String)
    (window now now2 now3 : Int)
    (hfresh : getattrInt? st (name ++ ".window") = Option.none)
    (hW : window < now) (h2 : now2 - now ≤ window) (h3 : window < now3 - now) :
    (api_rate_limit_exceeded st name window now).1 = false ∧
    getattrInt? (api_rate_limit_exceeded st name window now).2 (name ++ ".window") =
      some now ∧
    api_rate_limit_exceeded (api_rate_limit_exceeded st name window now).2 name window now2 =
      (true, (api_rate_limit_exceeded st name window now).2) ∧
    (api_rate_limit_exceeded (api_rate_limit_exceeded st name window now).2 name window now3).1 =
      false ∧
    getattrInt?
      (api_rate_limit_exceeded (api_rate_limit_exceeded st name window now).2 name window now3).2
      (name ++ ".window") = some now3 := by
  have hstep1 : api_rate_limit_exceeded st name window now =
      (false, ⟨(name ++ ".window", now) :: st.attrs⟩) := by
    simp only [api_rate_limit_exceeded, hfresh]
    rw [if_pos (by simp; omega)]
  have hget1 : getattrInt? ⟨(name ++ ".window", now) :: st.attrs⟩ (name ++ ".window") =
      some now := getattrInt_cons _ _ _
  have hstep2 : api_rate_limit_exceeded ⟨(name ++ ".window", now) :: st.attrs⟩ name window now2 =
      (true, ⟨(name ++ ".window", now) :: st.attrs⟩) := by
    simp only [api_rate_limit_exceeded, hget1]
    rw [if_neg (by simp; omega)]
  have hstep3 : api_rate_limit_exceeded ⟨(name ++ ".window", now) :: st.attrs⟩ name window now3 =
      (false, ⟨(name ++ ".window", now3) :: (name ++ ".window", now) :: st.attrs⟩) := by
    simp only [api_rate_limit_exceeded, hget1]
    rw [if_pos (by simp; omega)]
  rw [hstep1]
  exact ⟨rfl, hget1, hstep2, by rw [hstep3], by rw [hstep3]; exact getattrInt_cons _ _ _⟩

/-- Witness for the C3 theorem: a fresh client at unix time 1000 with the
default 60-second window, a second call at 1030 and a third at 1100. -/
theorem rate_limit_guard_behaviour_witness :
    getattrInt? ⟨[]⟩ ("get_metric_names" ++ ".window") = Option.none ∧
    (60 : Int) < 1000 ∧ (1030 : Int) - 1000 ≤ 60 ∧ (60 : Int) < 1100 - 1000 ∧
    (api_rate_limit_exceeded ⟨[]⟩ "get_metric_names" 60 1000).1 = false :=
  ⟨rfl, by norm_num, by norm_num, by norm_num,
    (rate_limit_guard_behaviour ⟨[]⟩ "get_metric_names" 60 1000 1030 1100 rfl
      (by norm_num) (by norm_num) (by norm_num)).1⟩

/-- C4 (code bug in the source): construction with a missing or empty
account id or API key does always fail, but with a `TypeError` rather than
the claimed `NewRelicCredentialException`: the source raises
`NewRelicCredentialException("""...""")` with a message argument while that
class's `__init__` accepts none, so the instantiation itself fails — the
mirror image of the rate-limit raise bug.  Construction with both
credentials present always succeeds and stores the account id, the API key,
the `x-api-key` header, the proxy and the numeric settings as given, with
defaults `retries = 3`, `retry_delay = 1`, `timeout = 1.0` when those
arguments are omitted. -/
theorem client_construction (aid key proxy : Option String)
    (retries : Nat) (retry_delay : Int) (timeout : ℚ) :
    ((strFalsy aid || strFalsy key) = true →
      Client.init aid key proxy retries retry_delay timeout =
        .error Raised.typeError) ∧
    raiseClassWithArg ExcClass.credential = Raised.typeError ∧
    (∀ a k, aid = some a → key = some k → a ≠ "" → k ≠ "" →
      Client.init aid key proxy retries retry_delay timeout =
        .ok ⟨a, k, [("x-api-key", k)], proxy, retries, retry_delay, timeout⟩) ∧
    (∀ a k : String, a ≠ "" → k ≠ "" →
      Client.initDefaults (some a) (some k) =
        .ok ⟨a, k, [("x-api-key", k)], Option.none, 3, 1, 1⟩) := by
  refine ⟨fun hf => by simp [Client.init, hf, raiseClassWithArg, initExtraArgs], rfl, ?_, ?_⟩
  · intro a k ha hk hane hkne
    subst ha; subst hk
    simp [Client.init, strFalsy_some_ne a hane, strFalsy_some_ne k hkne]
  · intro a k hane hkne
    simp [Client.initDefaults, Client.init, strFalsy_some_ne a hane,
      strFalsy_some_ne k hkne, defaultRetries, defaultRetryDelay, defaultTimeout]

/-- Witness for the C4 theorem: a missing account id fails with the
`TypeError` from the botched credential raise, and full credentials store
every field, with the documented defaults. -/
theorem client_construction_witness :
    Client.init Option.none (some "key") Option.none 3 1 1 =
      .error Raised.typeError ∧
    Client.init (some "12345") (some "key") Option.none 5 2 7 =
      .ok ⟨"12345", "key", [("x-api-key", "key")], Option.none, 5, 2, 7⟩ ∧
    Client.initDefaults (some "12345") (some "key") =
      .ok ⟨"12345", "key", [("x-api-key", "key")], Option.none, 3, 1, 1⟩ :=
  ⟨(client_construction Option.none (some "key") Option.none 3 1 1).1 rfl,
    (client_construction (some "12345") (some "key") Option.none 5 2 7).2.2.1
      "12345" "key" rfl rfl (by decide) (by decide),
    (client_construction (some "12345") (some "key") Option.none 3 1 1).2.2.2
      "12345" "key" (by decide) (by decide)⟩

/-- C5 (code bug in the source): a rate-limited invocation of
`get_metric_names` or `get_metric_data` does fail before any HTTP request is
issued, but the failure is a `TypeError`, not the claimed
`NewRelicApiRateLimitException`: that class's `__init__` requires an extra
positional argument, so the bare `raise NewRelicApiRateLimitException`
cannot instantiate it.  Concretely: a first call at unix time 1000 is
permitted and issues its request; a second call 30 seconds later, inside the
60-second window, yields `TypeError`; `get_metric_data` inside its window
does the same; and raising the rate-limit class always degenerates to
`TypeError`. -/
theorem rate_limited_call_raises_type_error :
    get_metric_names_request testClient ⟨[]⟩ 1000 42 Option.none 5000 =
      .ok (⟨"https://api.newrelic.com/api/v1/applications/42/metrics.xml",
            [("re", PyVal.none), ("limit", PyVal.int 5000)],
            [("x-api-key", "key")], 5⟩,
           ⟨[("get_metric_names.window", 1000)]⟩) ∧
    get_metric_names_request testClient ⟨[("get_metric_names.window", 1000)]⟩ 1030 42
      Option.none 5000 = .error Raised.typeError ∧
    get_metric_data_request ⟨[("get_metric_data.window", 1000)]⟩ 1030 ["123", "456"]
      ["CPU"] ["percent"] "2012-01-01" "2012-01-02" false = .error Raised.typeError ∧
    raiseClass ExcClass.rateLimit = Raised.typeError :=
  ⟨rfl, rfl, rfl, rfl⟩

/-- C6 (code bug in the source): the parameter-shape classification of
`get_metric_data` does pick the id-keyed list key `app_id[]` for
`["123", "456"]` and the single name-keyed key `app` for `["myapp"]` by
integer-parsing the first identifier, but no request is ever issued: after
the parameter dictionary is built the method evaluates the undefined name
`begin_time` (its parameter is `start_time`) and dies with a `NameError`. -/
theorem metric_data_name_error :
    metric_data_app_string ["123", "456"] = .ok "app_id[]" ∧
    metric_data_app_string ["myapp"] = .ok "app" ∧
    get_metric_data_request ⟨[]⟩ 1000 ["123", "456"] ["CPU"] ["percent"]
      "2012-01-01" "2012-01-02" false = .error (Raised.nameError "begin_time") ∧
    get_metric_data_request ⟨[]⟩ 1000 ["myapp"] ["CPU"] ["percent"]
      "2012-01-01" "2012-01-02" false = .error (Raised.nameError "begin_time") :=
  ⟨rfl, rfl, rfl, rfl⟩

/-- C7 (code bug in the source): on a response with two application entries,
one deleted and one failed, `delete_applications` does not return the failed
entry: on the very first entry it evaluates
`application.xpath('result').text`, and since `xpath` returns a Python list,
which has no attribute `text`, the method dies with an `AttributeError`
instead of returning the failures. -/
theorem delete_applications_attribute_error :
    (xpathAbs2 deleteFixture "applications" "application").length = 2 ∧
    delete_applications deleteFixture = .error (Raised.attributeError "text") :=
  ⟨rfl, rfl⟩

/-- C9 (code bug in the source): the body of
`get_application_summary_metrics` is a bare `pass`, so every invocation
silently returns `None`; no NotImplemented condition is ever surfaced to the
caller, contrary to the claim. -/
theorem summary_metrics_returns_none :
    (∀ ids : List String, get_application_summary_metrics ids = .ok PyVal.none) ∧
    get_application_summary_metrics ["123"] ≠ .error (Raised.exc ExcClass.apiException) := by
  exact ⟨fun _ => rfl, by simp [get_application_summary_metrics]⟩

/-- C8 counterexample: a body consisting of the declaration line followed by
the valid document `<a>x\ny</a>` parses successfully, but not to the tree of
that document: `_parse_xml` joins the remaining lines with the empty string,
so the text content `x\ny` of the document becomes `xy`. -/
theorem parse_xml_newline_counterexample :
    parse_xml "<?xml version=\"1.0\" encoding=\"UTF-8\"?>\n<a>x\ny</a>" =
      some (Node.elem "a" [Node.text "xy"]) ∧
    xmlParseChars "<a>x\ny</a>".data = some (Node.elem "a" [Node.text "x\ny"]) ∧
    parse_xml "<?xml version=\"1.0\" encoding=\"UTF-8\"?>\n<a>x\ny</a>" ≠
      xmlParseChars "<a>x\ny</a>".data := by
  refine ⟨rfl, rfl, fun h => ?_⟩
  have h' : some (Node.elem "a" [Node.text "xy"]) =
      some (Node.elem "a" [Node.text "x\ny"]) := h
  simp at h'

/-- C8 (amended): for a body that is the XML declaration line followed by a
valid document, `_parse_xml` strips the declaration line exactly once (never
twice) and parses the remaining lines joined with the empty separator; when
the document spans a single line this is exactly the tree of the document.
A body not beginning with the declaration is parsed unchanged. -/
theorem parse_xml_strips_declaration_once (doc : List Char) (t : Node)
    (hnl : ('\n' : Char) ∉ doc) (hp : xmlParseChars doc = some t) :
    xmlParseChars (parse_xml_chars (xmlDecl.data ++ '\n' :: doc)) = some t ∧
    ∀ s : List Char, xmlDecl.data.isPrefixOf s = false → parse_xml_chars s = s := by
  constructor
  · have hpre : xmlDecl.data.isPrefixOf (xmlDecl.data ++ '\n' :: doc) = true := by
      simp [List.isPrefixOf_iff_prefix]
    have hd : ('\n' : Char) ∉ xmlDecl.data := by decide
    rw [parse_xml_chars, if_pos hpre, splitLines_append _ _ hd, List.drop_one,
      List.tail_cons, splitLines_no_newline doc hnl]
    simpa [joinChars] using hp
  · intro s hs
    simp [parse_xml_chars, hs]

/-- Witness for the amended C8 theorem: the single-line document
`<a>ok</a>` preceded by the declaration line parses to its own tree. -/
theorem parse_xml_strips_declaration_once_witness :
    (('\n' : Char) ∉ "<a>ok</a>".data) ∧
    xmlParseChars (parse_xml_chars (xmlDecl.data ++ '\n' :: "<a>ok</a>".data)) =
      some (Node.elem "a" [Node.text "ok"]) :=
  ⟨by decide,
    (parse_xml_strips_declaration_once "<a>ok</a>".data (Node.elem "a" [Node.text "ok"])
      (by decide) rfl).1⟩

end Pyrelic
